import Mathlib

/-!
Verification of the HealthCareKit ESP32 vital-monitor firmware.

The repository ships two Arduino sketches:
* `esp32_vital_monitor/esp32_monitor/esp32_monitor.ino` — the serial
  variant: sample sensors once per `READ_INTERVAL` and print one JSON
  record per sample over the serial port;
* the WiFi variant (`esp32_monitor_wifi.ino`, embedded in the repository
  snapshot): same sensor sampling, plus a WiFi connection manager and an
  HTTP POST publisher on its own `SEND_INTERVAL`.

The sensor-sampling functions (`readAllSensors`, `readBloodPressure`,
`readRespiratoryRate`, `readECGData`) are textually identical in the two
sketches, so they are embedded once and shared.

Modelling conventions:
* C `int` readings become `Int`; `unsigned long` (32-bit on ESP32)
  becomes `Nat` reduced `% 2^32` where it is stored or compared;
* `float` temperatures become `Rat` (no claim depends on floating-point
  rounding behaviour);
* hardware reads (`analogRead`, `digitalRead`, the MLX90614/MAX30100
  driver getters, `WiFi.status()`, `http.POST`) are inputs supplied by an
  environment record per loop iteration;
* real time (`millis()`/`delay`) is an explicit `now : Nat` counter in
  milliseconds of true time since boot; `millis()` returns `now % 2^32`;
  each `delay(k)` and each environment-charged operation advances `now`.
-/

namespace HealthCareKit

/-- Arduino's `map(x, in_min, in_max, out_min, out_max)`:
`(x - in_min) * (out_max - out_min) / (in_max - in_min) + out_min` with
C `long` arithmetic; `Int.tdiv` is C's truncating division. -/
def arduinoMap (x inMin inMax outMin outMax : Int) : Int :=
  Int.tdiv ((x - inMin) * (outMax - outMin)) (inMax - inMin) + outMin

/-- The `VitalData` struct of both sketches. `timestamp` holds the value
of `millis()` (an `unsigned long`, hence `% 2^32`). -/
structure VitalData where
  heartRate : Int
  bpSystolic : Int
  bpDiastolic : Int
  temperature : Rat
  oxygenSaturation : Int
  respiratoryRate : Int
  ecgValue : Int
  ecgLeadsConnected : Bool
  timestamp : Nat
deriving Repr, DecidableEq

/-- The C++ global `VitalData vitals;` is zero-initialised. -/
def initialVitals : VitalData :=
  { heartRate := 0, bpSystolic := 0, bpDiastolic := 0, temperature := 0,
    oxygenSaturation := 0, respiratoryRate := 0, ecgValue := 0,
    ecgLeadsConnected := false, timestamp := 0 }

/-- Sensor presence flags `mlxConnected` / `poxConnected`, set in
`setup()` from the drivers' `begin()` results. -/
structure SensorFlags where
  mlxConnected : Bool
  poxConnected : Bool
deriving Repr, DecidableEq

/-- One sampling tick's raw hardware readings: what the drivers and the
ADC/GPIO pins would return if read during this tick.  `poxHeartRate` and
`poxSpO2` are the driver getters already truncated to C `int`;
`ecgLoPlus`/`ecgLoMinus` are `digitalRead` results (`true` = `HIGH`). -/
structure SensorEnv where
  mlxTempC : Rat
  poxHeartRate : Int
  poxSpO2 : Int
  bpRaw : Int
  respRaw : Int
  ecgRaw : Int
  ecgLoPlus : Bool
  ecgLoMinus : Bool
deriving Repr, DecidableEq

/-- `readBloodPressure()`: `map(analogRead(BP_SENSOR_PIN), 0, 4095, 80, 180)`. -/
def readBloodPressure (env : SensorEnv) : Int :=
  arduinoMap env.bpRaw 0 4095 80 180

/-- `readRespiratoryRate()`: `map(analogRead(RESP_SENSOR_PIN), 0, 4095, 8, 25)`. -/
def readRespiratoryRate (env : SensorEnv) : Int :=
  arduinoMap env.respRaw 0 4095 8 25

/-- `readECGData()`: returns `(ecgValue, ecgLeadsConnected)`.  If either
lead-off pin reads `HIGH` the result is `(0, false)` and the analog ECG
channel is not consulted; otherwise `(analogRead(ECG_OUTPUT_PIN), true)`. -/
def readECGData (env : SensorEnv) : Int × Bool :=
  if env.ecgLoPlus || env.ecgLoMinus then (0, false)
  else (env.ecgRaw, true)

/-- `readAllSensors()` (identical in both sketches): temperature gated on
`mlxConnected`; heart rate / SpO2 gated on `poxConnected` and then
plausibility-filtered (`< 30 || > 200` resp. `< 70 || > 100` zeroed);
systolic from the analog map; diastolic `= systolic - 40`; respiratory
rate from the analog map; ECG via `readECGData`; timestamp `= millis()`.
`nowMs` is the true time at which `vitals.timestamp = millis();` runs. -/
def readAllSensors (flags : SensorFlags) (env : SensorEnv) (nowMs : Nat) : VitalData :=
  let temperature : Rat := if flags.mlxConnected then env.mlxTempC else 0
  let heartRate : Int :=
    if flags.poxConnected then
      if env.poxHeartRate < 30 ∨ 200 < env.poxHeartRate then 0 else env.poxHeartRate
    else 0
  let oxygenSaturation : Int :=
    if flags.poxConnected then
      if env.poxSpO2 < 70 ∨ 100 < env.poxSpO2 then 0 else env.poxSpO2
    else 0
  let bpSystolic : Int := readBloodPressure env
  let ecg := readECGData env
  { heartRate := heartRate
    bpSystolic := bpSystolic
    bpDiastolic := bpSystolic - 40
    temperature := temperature
    oxygenSaturation := oxygenSaturation
    respiratoryRate := readRespiratoryRate env
    ecgValue := ecg.1
    ecgLeadsConnected := ecg.2
    timestamp := nowMs % 2 ^ 32 }

/-- The JSON telemetry record built by `sendVitalData` (serial sketch) /
`sendVitalDataToAPI` (WiFi sketch): one field per JSON key.  `temp` is
`round(vitals.temperature * 10) / 10.0`. -/
structure TelemetryRecord where
  hr : Int
  bp_sys : Int
  bp_dia : Int
  temp : Rat
  spo2 : Int
  rr : Int
  ecg : Int
  ecg_leads : Bool
  timestamp : Nat
  sensors_mlx90614 : Bool
  sensors_max30100 : Bool
deriving Repr, DecidableEq

/-- `round(t * 10) / 10.0` on the temperature before serialization. -/
def roundTemp (t : Rat) : Rat := (round (t * 10) : Int) / 10

/-- `sendVitalData()` of the serial sketch (and the JSON body of
`sendVitalDataToAPI()` in the WiFi sketch, minus `device_id`): the record
serialized from the current vitals plus the capability flags. -/
def sendVitalData (flags : SensorFlags) (v : VitalData) : TelemetryRecord :=
  { hr := v.heartRate
    bp_sys := v.bpSystolic
    bp_dia := v.bpDiastolic
    temp := roundTemp v.temperature
    spo2 := v.oxygenSaturation
    rr := v.respiratoryRate
    ecg := v.ecgValue
    ecg_leads := v.ecgLeadsConnected
    timestamp := v.timestamp
    sensors_mlx90614 := flags.mlxConnected
    sensors_max30100 := flags.poxConnected }

/-- `READ_INTERVAL = 1000` ms (both sketches). -/
def READ_INTERVAL : Nat := 1000

/-- `SEND_INTERVAL = 2000` ms (WiFi sketch). -/
def SEND_INTERVAL : Nat := 2000

/-- Unsigned 32-bit subtraction `a - b` as C computes it on
`unsigned long` operands already reduced below `2^32`:
`currentTime - lastReadTime` wraps around modulo `2^32`. -/
def usub32 (a b : Nat) : Nat := (a + 2 ^ 32 - b) % 2 ^ 32

/- ===================== Serial sketch control loop ===================== -/

/-- Machine state of the serial sketch between `loop()` iterations.
`now` is true milliseconds since boot (unbounded); `lastReadTime` stores
the `unsigned long` register.  `snapshots` and `records` are ghost logs
(newest first) of the snapshots produced and records published. -/
structure SerialState where
  now : Nat
  lastReadTime : Nat
  flags : SensorFlags
  vitals : VitalData
  snapshots : List VitalData
  records : List TelemetryRecord
deriving Repr, DecidableEq

/-- Environment of one serial `loop()` iteration: `dtLoop` is the true
time that passes before this iteration samples `millis()`; `dtSample` is
the time the sensor reads take before `vitals.timestamp = millis();`. -/
structure SerialEnv where
  dtLoop : Nat
  dtSample : Nat
  sensors : SensorEnv
deriving Repr

/-- State after `setup()` of the serial sketch: flags from the drivers'
`begin()` results, zero-initialised globals, `t0` = `millis()` at the end
of `setup()`. -/
def setupState (mlxBegin poxBegin : Bool) (t0 : Nat) : SerialState :=
  { now := t0, lastReadTime := 0, flags := ⟨mlxBegin, poxBegin⟩,
    vitals := initialVitals, snapshots := [], records := [] }

/-- One iteration of the serial sketch's `loop()`: read `millis()`; if
`currentTime - lastReadTime >= READ_INTERVAL` (unsigned arithmetic) then
`readAllSensors(); sendVitalData(); lastReadTime = currentTime;` and the
LED pulse `delay(50)`; `pox.update()` touches no modelled state. -/
def serialStep (e : SerialEnv) (s : SerialState) : SerialState :=
  let now1 := s.now + e.dtLoop
  let currentTime := now1 % 2 ^ 32
  if READ_INTERVAL ≤ usub32 currentTime s.lastReadTime then
    let v := readAllSensors s.flags e.sensors (now1 + e.dtSample)
    let r := sendVitalData s.flags v
    { now := now1 + e.dtSample + 50
      lastReadTime := currentTime
      flags := s.flags
      vitals := v
      snapshots := v :: s.snapshots
      records := r :: s.records }
  else { s with now := now1 }

/-- The serial sketch's `loop()` run over a finite list of per-iteration
environments. -/
def serialRun (envs : List SerialEnv) (s : SerialState) : SerialState :=
  envs.foldl (fun s e => serialStep e s) s

/-- The snapshot log (newest first) has strictly increasing timestamps:
each snapshot's `timestamp` is strictly greater than the one produced
just before it. -/
def timestampsIncreasing : List VitalData → Bool
  | [] => true
  | [_] => true
  | newer :: older :: l =>
    decide (older.timestamp < newer.timestamp) && timestampsIncreasing (older :: l)

/- ====================== WiFi sketch control loop ====================== -/

/-- `delay(500)` between WiFi association attempts. -/
def WIFI_RETRY_DELAY : Nat := 500

/-- `attempts < 20` bound of the association loop. -/
def WIFI_MAX_ATTEMPTS : Nat := 20

/-- The `while (WiFi.status() != WL_CONNECTED && attempts < 20)` loop of
`connectToWiFi()`: `statusAt i` is the status read while the `attempts`
counter equals `i` (`true` = `WL_CONNECTED`).  Returns the final value of
`attempts`, i.e. the number of `delay(500)` iterations executed.  `fuel`
is `WIFI_MAX_ATTEMPTS - attempts`, making the recursion structural. -/
def connectAttemptsAux (statusAt : Nat → Bool) : Nat → Nat → Nat
  | 0, attempts => attempts
  | fuel + 1, attempts =>
    if statusAt attempts then attempts
    else connectAttemptsAux statusAt fuel (attempts + 1)

/-- Final `attempts` value of `connectToWiFi()`'s association loop. -/
def connectAttempts (statusAt : Nat → Bool) : Nat :=
  connectAttemptsAux statusAt WIFI_MAX_ATTEMPTS 0

/-- `connectToWiFi()`: runs the bounded association loop, then re-checks
`WiFi.status()` to set `wifiConnected`.  Result: (new `wifiConnected`,
elapsed true time in ms — `delay(500)` per executed attempt). -/
def connectToWiFi (statusAt : Nat → Bool) : Bool × Nat :=
  let n := connectAttempts statusAt
  (statusAt n, WIFI_RETRY_DELAY * n)

/-- Outcome of one `sendVitalDataToAPI()` call: whether an HTTP POST was
issued, whether the call logged success, and its true duration. -/
structure SendOutcome where
  posted : Bool
  success : Bool
  elapsed : Nat
deriving Repr, DecidableEq

/-- `sendVitalDataToAPI()`: `if (!wifiConnected) return;`, else build the
JSON body, issue exactly one `http.POST`, and record success exactly when
`httpResponseCode > 0` (the success branch pulses the LED: `delay(50)`).
Failure is only logged; the function always returns. -/
def sendVitalDataToAPI (wifiConnected : Bool) (httpCode : Int) (dtPost : Nat) :
    SendOutcome :=
  if !wifiConnected then ⟨false, false, 0⟩
  else ⟨true, decide (0 < httpCode), dtPost + if 0 < httpCode then 50 else 0⟩

/-- Machine state of the WiFi sketch between `loop()` iterations.
`readCount` and `postCount` are ghost counters of `readAllSensors()`
invocations and HTTP POSTs issued; `sendResults` is the ghost log of
recorded send outcomes (newest first). -/
structure WifiState where
  now : Nat
  lastReadTime : Nat
  lastSendTime : Nat
  wifiConnected : Bool
  flags : SensorFlags
  vitals : VitalData
  readCount : Nat
  postCount : Nat
  sendResults : List Bool
deriving Repr

/-- Environment of one WiFi `loop()` iteration: `statusAtTop` is the
`WiFi.status()` read at loop entry; `statusDuringConnect` feeds
`connectToWiFi()` if a reconnect runs; `httpCode` is what `http.POST`
would return and `dtPost` how long it would take. -/
structure WifiEnv where
  statusAtTop : Bool
  statusDuringConnect : Nat → Bool
  sensors : SensorEnv
  dtSample : Nat
  dtPost : Nat
  httpCode : Int

/-- The reconnect block at the top of the WiFi `loop()`: if
`WiFi.status() != WL_CONNECTED`, set `wifiConnected = false` and run the
blocking `connectToWiFi()`.  Result: (new `wifiConnected`, elapsed ms). -/
def wifiReconnect (e : WifiEnv) (s : WifiState) : Bool × Nat :=
  if e.statusAtTop then (s.wifiConnected, 0)
  else connectToWiFi e.statusDuringConnect

/-- One iteration of the WiFi sketch's `loop()`.  Note the fidelity
points: `currentTime = millis()` is captured before the reconnect block,
so both the read gate and the send gate compare against that (possibly
stale) value; the read gate does not consult the link state or the POST
outcome; the send gate is `wifiConnected && currentTime - lastSendTime >=
SEND_INTERVAL`; the trailing `delay(10)` always runs. -/
def wifiStep (e : WifiEnv) (s : WifiState) : WifiState :=
  let currentTime := s.now % 2 ^ 32
  let wc := wifiReconnect e s
  let now1 := s.now + wc.2
  let doRead : Bool := decide (READ_INTERVAL ≤ usub32 currentTime s.lastReadTime)
  let doSend : Bool := wc.1 && decide (SEND_INTERVAL ≤ usub32 currentTime s.lastSendTime)
  let vitals1 := if doRead then readAllSensors s.flags e.sensors (now1 + e.dtSample) else s.vitals
  let now2 := if doRead then now1 + e.dtSample else now1
  let outcome := sendVitalDataToAPI wc.1 e.httpCode e.dtPost
  { now := (if doSend then now2 + outcome.elapsed else now2) + 10
    lastReadTime := if doRead then currentTime else s.lastReadTime
    lastSendTime := if doSend then currentTime else s.lastSendTime
    wifiConnected := wc.1
    flags := s.flags
    vitals := vitals1
    readCount := if doRead then s.readCount + 1 else s.readCount
    postCount := if doSend then s.postCount + (if outcome.posted then 1 else 0) else s.postCount
    sendResults := if doSend then outcome.success :: s.sendResults else s.sendResults }

/- ========================= Concrete test data ========================= -/

/-- A concrete sampling tick with all sensors returning plausible values
and both ECG leads attached. -/
def sampleEnv : SensorEnv :=
  { mlxTempC := 36, poxHeartRate := 75, poxSpO2 := 98, bpRaw := 2048,
    respRaw := 1000, ecgRaw := 1234, ecgLoPlus := false, ecgLoMinus := false }

/-- Like `sampleEnv` but with the LO+ lead-off pin reading `HIGH`. -/
def leadsOffEnv : SensorEnv := { sampleEnv with ecgLoPlus := true }

/- ============================== Claims =============================== -/

/-- Claim C2: with the pulse oximeter present, the snapshot's `heartRate`
equals the raw reading exactly when it lies in `[30, 200]` and is `0`
otherwise, and `oxygenSaturation` equals the raw reading exactly when it
lies in `[70, 100]` and is `0` otherwise. -/
theorem claim2_pulse_ox_plausibility (b : Bool) (env : SensorEnv) (t : Nat) :
    ((readAllSensors ⟨b, true⟩ env t).heartRate =
      if 30 ≤ env.poxHeartRate ∧ env.poxHeartRate ≤ 200 then env.poxHeartRate else 0)
    ∧ ((readAllSensors ⟨b, true⟩ env t).oxygenSaturation =
      if 70 ≤ env.poxSpO2 ∧ env.poxSpO2 ≤ 100 then env.poxSpO2 else 0) := by
  constructor <;> simp only [readAllSensors] <;> split_ifs <;> first | rfl | omega

/-- Claim C4: whenever either ECG lead-off pin reads `HIGH`, the snapshot
has `ecgValue = 0` and `ecgLeadsConnected = false`, and the analog ECG
channel is not read (the snapshot is unchanged under any value of the
analog ECG input); when both pins read `LOW`, `ecgLeadsConnected = true`. -/
theorem claim4_ecg_leads_off (flags : SensorFlags) (env : SensorEnv) (t : Nat) :
    ((env.ecgLoPlus = true ∨ env.ecgLoMinus = true) →
      (readAllSensors flags env t).ecgValue = 0
      ∧ (readAllSensors flags env t).ecgLeadsConnected = false
      ∧ ∀ a : Int, readAllSensors flags { env with ecgRaw := a } t = readAllSensors flags env t)
    ∧ (env.ecgLoPlus = false → env.ecgLoMinus = false →
      (readAllSensors flags env t).ecgLeadsConnected = true) := by
  cases hp : env.ecgLoPlus <;> cases hm : env.ecgLoMinus <;>
    simp [readAllSensors, readECGData, readBloodPressure, readRespiratoryRate, hp, hm]

/-- Claim C4 witness: at a concrete tick with LO+ reading `HIGH`, the ECG
fields are forced to their disconnected values, and at a concrete tick
with both pins `LOW` the leads are reported connected. -/
theorem claim4_ecg_leads_off_witness :
    (readAllSensors ⟨true, true⟩ leadsOffEnv 5).ecgValue = 0
    ∧ (readAllSensors ⟨true, true⟩ leadsOffEnv 5).ecgLeadsConnected = false
    ∧ (readAllSensors ⟨true, true⟩ sampleEnv 5).ecgLeadsConnected = true := by
  have h1 := (claim4_ecg_leads_off ⟨true, true⟩ leadsOffEnv 5).1 (Or.inl rfl)
  have h2 := (claim4_ecg_leads_off ⟨true, true⟩ sampleEnv 5).2 rfl rfl
  exact ⟨h1.1, h1.2.1, h2⟩

/-- Claim C5: for every generated snapshot, `bpDiastolic` equals
`bpSystolic - 40` exactly; it is derived from the systolic value, never
independently sampled. -/
theorem claim5_diastolic_offset (flags : SensorFlags) (env : SensorEnv) (t : Nat) :
    (readAllSensors flags env t).bpDiastolic =
      (readAllSensors flags env t).bpSystolic - 40 := rfl

/-- Claim C7: the blood-pressure proxy's integer `map` sends the ADC
domain endpoints to the range endpoints: raw `0` gives `bp_sys = 80`
(hence `bp_dia = 40`) and raw `4095` gives `bp_sys = 180` (hence
`bp_dia = 140`). -/
theorem claim7_bp_remap_endpoints (flags : SensorFlags) (env : SensorEnv) (t : Nat) :
    readBloodPressure { env with bpRaw := 0 } = 80
    ∧ readBloodPressure { env with bpRaw := 4095 } = 180
    ∧ (readAllSensors flags { env with bpRaw := 0 } t).bpSystolic = 80
    ∧ (readAllSensors flags { env with bpRaw := 0 } t).bpDiastolic = 40
    ∧ (readAllSensors flags { env with bpRaw := 4095 } t).bpSystolic = 180
    ∧ (readAllSensors flags { env with bpRaw := 4095 } t).bpDiastolic = 140 :=
  ⟨rfl, rfl, rfl, rfl, rfl, rfl⟩

/-- Claim C10: whenever both ECG lead-off pins read `LOW`, the snapshot's
`ecgValue` is the raw analog ADC reading verbatim — no plausibility or
range filter is applied to the ECG channel. -/
theorem claim10_ecg_published_verbatim (flags : SensorFlags) (env : SensorEnv) (t : Nat)
    (hp : env.ecgLoPlus = false) (hm : env.ecgLoMinus = false) :
    (readAllSensors flags env t).ecgValue = env.ecgRaw := by
  simp [readAllSensors, readECGData, hp, hm]

/-- Claim C10 witness: at a concrete tick with both leads attached, the
published ECG value is the raw ADC reading `1234`. -/
theorem claim10_ecg_published_verbatim_witness :
    (readAllSensors ⟨true, true⟩ sampleEnv 5).ecgValue = 1234 :=
  claim10_ecg_published_verbatim ⟨true, true⟩ sampleEnv 5 rfl rfl

/- ==================== Serial-run helper lemmas ==================== -/

theorem serialRun_cons (e : SerialEnv) (envs : List SerialEnv) (s : SerialState) :
    serialRun (e :: envs) s = serialRun envs (serialStep e s) := rfl

theorem serialStep_flags (e : SerialEnv) (s : SerialState) :
    (serialStep e s).flags = s.flags := by
  simp only [serialStep]
  split <;> rfl

theorem serialRun_flags (envs : List SerialEnv) (s : SerialState) :
    (serialRun envs s).flags = s.flags := by
  induction envs generalizing s with
  | nil => rfl
  | cons e envs ih => rw [serialRun_cons, ih, serialStep_flags]

theorem serialStep_snapshots (e : SerialEnv) (s : SerialState) :
    (serialStep e s).snapshots = s.snapshots ∨
    (serialStep e s).snapshots =
      readAllSensors s.flags e.sensors (s.now + e.dtLoop + e.dtSample) :: s.snapshots := by
  simp only [serialStep]
  split
  · right; rfl
  · left; rfl

theorem serialStep_records (e : SerialEnv) (s : SerialState) :
    (serialStep e s).records = s.records ∨
    (serialStep e s).records =
      sendVitalData s.flags (readAllSensors s.flags e.sensors (s.now + e.dtLoop + e.dtSample))
        :: s.records := by
  simp only [serialStep]
  split
  · right; rfl
  · left; rfl

/-- Every snapshot appended by a run comes from `readAllSensors` with the
session flags, and every record from `sendVitalData` of such a snapshot:
any predicates `P`/`R` holding of those stay true of the whole logs. -/
theorem serialRun_log_inv (P : VitalData → Prop) (R : TelemetryRecord → Prop)
    (flags : SensorFlags)
    (hP : ∀ env t, P (readAllSensors flags env t))
    (hR : ∀ env t, R (sendVitalData flags (readAllSensors flags env t)))
    (envs : List SerialEnv) (s : SerialState)
    (hflags : s.flags = flags)
    (h1 : ∀ v ∈ s.snapshots, P v) (h2 : ∀ r ∈ s.records, R r) :
    (∀ v ∈ (serialRun envs s).snapshots, P v)
    ∧ ∀ r ∈ (serialRun envs s).records, R r := by
  induction envs generalizing s with
  | nil => exact ⟨h1, h2⟩
  | cons e envs ih =>
    rw [serialRun_cons]
    refine ih (serialStep e s) (by rw [serialStep_flags, hflags]) ?_ ?_
    · rcases serialStep_snapshots e s with h | h <;> rw [h]
      · exact h1
      · intro v hv
        rcases List.mem_cons.mp hv with h' | h'
        · subst h'
          rw [hflags]
          exact hP _ _
        · exact h1 v h'
    · rcases serialStep_records e s with h | h <;> rw [h]
      · exact h2
      · intro r hr
        rcases List.mem_cons.mp hr with h' | h'
        · subst h'
          rw [hflags]
          exact hR _ _
        · exact h2 r h'

/-- Claim C3: a capability-gated sensor absent at start-up stays zeroed
for the entire session: the flags are never changed after `setup()`; if
the MLX90614 probe failed, every snapshot of the session has
`temperature = 0` and every published record reports
`sensors.mlx90614 = false`; if the MAX30100 probe failed, every snapshot
has `heartRate = 0` and `oxygenSaturation = 0` and every record reports
`sensors.max30100 = false`. -/
theorem claim3_capability_gating (mlxBegin poxBegin : Bool) (t0 : Nat)
    (envs : List SerialEnv) :
    (serialRun envs (setupState mlxBegin poxBegin t0)).flags = ⟨mlxBegin, poxBegin⟩
    ∧ (mlxBegin = false →
        ∀ v ∈ (serialRun envs (setupState mlxBegin poxBegin t0)).snapshots,
          v.temperature = 0)
    ∧ (poxBegin = false →
        ∀ v ∈ (serialRun envs (setupState mlxBegin poxBegin t0)).snapshots,
          v.heartRate = 0 ∧ v.oxygenSaturation = 0)
    ∧ (mlxBegin = false →
        ∀ r ∈ (serialRun envs (setupState mlxBegin poxBegin t0)).records,
          r.sensors_mlx90614 = false)
    ∧ (poxBegin = false →
        ∀ r ∈ (serialRun envs (setupState mlxBegin poxBegin t0)).records,
          r.sensors_max30100 = false) := by
  have hnil1 : ∀ v ∈ (setupState mlxBegin poxBegin t0).snapshots, False := by
    intro v hv
    simp [setupState] at hv
  have hnil2 : ∀ r ∈ (setupState mlxBegin poxBegin t0).records, False := by
    intro r hr
    simp [setupState] at hr
  refine ⟨serialRun_flags envs _, ?_, ?_, ?_, ?_⟩
  · intro hm
    subst hm
    exact (serialRun_log_inv (fun v => v.temperature = 0) (fun _ => True)
      ⟨false, poxBegin⟩ (fun env t => by simp [readAllSensors])
      (fun _ _ => trivial) envs _ rfl (fun v hv => absurd hv (fun h => hnil1 v h))
      (fun r hr => trivial)).1
  · intro hp
    subst hp
    exact (serialRun_log_inv (fun v => v.heartRate = 0 ∧ v.oxygenSaturation = 0)
      (fun _ => True) ⟨mlxBegin, false⟩ (fun env t => by simp [readAllSensors])
      (fun _ _ => trivial) envs _ rfl (fun v hv => absurd hv (fun h => hnil1 v h))
      (fun r hr => trivial)).1
  · intro hm
    subst hm
    exact (serialRun_log_inv (fun _ => True) (fun r => r.sensors_mlx90614 = false)
      ⟨false, poxBegin⟩ (fun _ _ => trivial) (fun env t => rfl) envs _ rfl
      (fun v hv => trivial) (fun r hr => absurd hr (fun h => hnil2 r h))).2
  · intro hp
    subst hp
    exact (serialRun_log_inv (fun _ => True) (fun r => r.sensors_max30100 = false)
      ⟨mlxBegin, false⟩ (fun _ _ => trivial) (fun env t => rfl) envs _ rfl
      (fun v hv => trivial) (fun r hr => absurd hr (fun h => hnil2 r h))).2

/-- One serial iteration whose elapsed time triggers a sensor read. -/
def claim3Env : SerialEnv := { dtLoop := 1000, dtSample := 0, sensors := sampleEnv }

/-- Claim C3 witness: a concrete session with both probes failed and one
read tick: the flags stay `false` and the produced snapshot and record
carry the zero sentinels and `false` capability flags. -/
theorem claim3_capability_gating_witness :
    (serialRun [claim3Env] (setupState false false 0)).flags = ⟨false, false⟩
    ∧ (∀ v ∈ (serialRun [claim3Env] (setupState false false 0)).snapshots,
        v.temperature = 0)
    ∧ (∀ v ∈ (serialRun [claim3Env] (setupState false false 0)).snapshots,
        v.heartRate = 0 ∧ v.oxygenSaturation = 0)
    ∧ (∀ r ∈ (serialRun [claim3Env] (setupState false false 0)).records,
        r.sensors_mlx90614 = false)
    ∧ (∀ r ∈ (serialRun [claim3Env] (setupState false false 0)).records,
        r.sensors_max30100 = false) := by
  have h := claim3_capability_gating false false 0 [claim3Env]
  exact ⟨h.1, h.2.1 rfl, h.2.2.1 rfl, h.2.2.2.1 rfl, h.2.2.2.2 rfl⟩

/- ==================== Timestamp monotonicity (C9) ==================== -/

theorem readAllSensors_timestamp (flags : SensorFlags) (env : SensorEnv) (t : Nat) :
    (readAllSensors flags env t).timestamp = t % 2 ^ 32 := rfl

theorem serialStep_read (e : SerialEnv) (s : SerialState)
    (hc : READ_INTERVAL ≤ usub32 ((s.now + e.dtLoop) % 2 ^ 32) s.lastReadTime) :
    serialStep e s =
      { now := s.now + e.dtLoop + e.dtSample + 50
        lastReadTime := (s.now + e.dtLoop) % 2 ^ 32
        flags := s.flags
        vitals := readAllSensors s.flags e.sensors (s.now + e.dtLoop + e.dtSample)
        snapshots :=
          readAllSensors s.flags e.sensors (s.now + e.dtLoop + e.dtSample) :: s.snapshots
        records :=
          sendVitalData s.flags
              (readAllSensors s.flags e.sensors (s.now + e.dtLoop + e.dtSample))
            :: s.records } := by
  simp only [serialStep, if_pos hc]

theorem serialStep_skip (e : SerialEnv) (s : SerialState)
    (hc : ¬ READ_INTERVAL ≤ usub32 ((s.now + e.dtLoop) % 2 ^ 32) s.lastReadTime) :
    serialStep e s = { s with now := s.now + e.dtLoop } := by
  simp only [serialStep, if_neg hc]

theorem serialStep_now_mono (e : SerialEnv) (s : SerialState) :
    s.now ≤ (serialStep e s).now := by
  by_cases hc : READ_INTERVAL ≤ usub32 ((s.now + e.dtLoop) % 2 ^ 32) s.lastReadTime
  · rw [serialStep_read e s hc]
    dsimp
    omega
  · rw [serialStep_skip e s hc]
    dsimp
    omega

theorem serialRun_now_mono (envs : List SerialEnv) (s : SerialState) :
    s.now ≤ (serialRun envs s).now := by
  induction envs generalizing s with
  | nil => exact Nat.le_refl _
  | cons e envs ih =>
    rw [serialRun_cons]
    exact Nat.le_trans (serialStep_now_mono e s) (ih (serialStep e s))

/-- Invariant carried through the serial loop while no `millis()` wrap
has occurred: every logged timestamp was taken at least 50 ms (the LED
pulse) before the current time, and the log is strictly increasing. -/
def tsInv (s : SerialState) : Prop :=
  (∀ v ∈ s.snapshots, v.timestamp + 50 ≤ s.now)
  ∧ timestampsIncreasing s.snapshots = true

theorem serialStep_tsInv (e : SerialEnv) (s : SerialState)
    (hwrap : (serialStep e s).now < 2 ^ 32) (hinv : tsInv s) :
    tsInv (serialStep e s) := by
  obtain ⟨hle, hchain⟩ := hinv
  by_cases hc : READ_INTERVAL ≤ usub32 ((s.now + e.dtLoop) % 2 ^ 32) s.lastReadTime
  · rw [serialStep_read e s hc] at hwrap ⊢
    dsimp at hwrap
    have hts : (readAllSensors s.flags e.sensors (s.now + e.dtLoop + e.dtSample)).timestamp
        = s.now + e.dtLoop + e.dtSample := by
      rw [readAllSensors_timestamp]
      omega
    refine ⟨?_, ?_⟩
    · intro v hv
      dsimp at hv ⊢
      rcases List.mem_cons.mp hv with h' | h'
      · subst h'
        rw [hts]
      · have := hle v h'
        omega
    · dsimp
      rcases hsnap : s.snapshots with _ | ⟨b, l⟩
      · rfl
      · rw [hsnap] at hchain hle
        simp only [timestampsIncreasing, Bool.and_eq_true, decide_eq_true_eq]
        refine ⟨?_, hchain⟩
        have := hle b (List.mem_cons_self b l)
        rw [hts]
        omega
  · rw [serialStep_skip e s hc]
    refine ⟨?_, hchain⟩
    intro v hv
    have := hle v hv
    dsimp at hv ⊢
    omega

theorem serialRun_tsInv (envs : List SerialEnv) (s : SerialState)
    (hwrap : (serialRun envs s).now < 2 ^ 32) (hinv : tsInv s) :
    tsInv (serialRun envs s) := by
  induction envs generalizing s with
  | nil => exact hinv
  | cons e envs ih =>
    rw [serialRun_cons] at hwrap ⊢
    have hstep : (serialStep e s).now < 2 ^ 32 :=
      Nat.lt_of_le_of_lt (serialRun_now_mono envs (serialStep e s)) hwrap
    exact ih (serialStep e s) hwrap (serialStep_tsInv e s hstep hinv)

/-- Claim C9 (amended): timestamps are strictly increasing across the
snapshots of a session as long as the device's true elapsed time stays
below `2^32` ms, i.e. as long as `millis()` has not wrapped around. -/
theorem claim9_timestamps_increasing (mlxBegin poxBegin : Bool) (t0 : Nat)
    (envs : List SerialEnv)
    (hwrap : (serialRun envs (setupState mlxBegin poxBegin t0)).now < 2 ^ 32) :
    timestampsIncreasing
      (serialRun envs (setupState mlxBegin poxBegin t0)).snapshots = true :=
  (serialRun_tsInv envs _ hwrap
    ⟨fun v hv => absurd hv (List.not_mem_nil v), rfl⟩).2

/-- One serial iteration advancing time by exactly one read interval. -/
def tickEnv : SerialEnv := { dtLoop := 1000, dtSample := 0, sensors := sampleEnv }

/-- Claim C9 witness: a concrete two-read session without wraparound has
strictly increasing snapshot timestamps. -/
theorem claim9_timestamps_increasing_witness :
    (serialRun [tickEnv, tickEnv] (setupState true true 0)).now < 2 ^ 32
    ∧ timestampsIncreasing
        (serialRun [tickEnv, tickEnv] (setupState true true 0)).snapshots = true :=
  ⟨by decide, claim9_timestamps_increasing true true 0 [tickEnv, tickEnv] (by decide)⟩

/-- First iteration of the wraparound counterexample: true time jumps to
600 ms before the `millis()` wrap and one snapshot is taken there. -/
def wrapEnv1 : SerialEnv := { dtLoop := 2 ^ 32 - 600, dtSample := 0, sensors := sampleEnv }

/-- Second iteration: 1050 ms later, past the wrap, `millis()` reads 500
and (by unsigned arithmetic) the read gate still fires. -/
def wrapEnv2 : SerialEnv := { dtLoop := 1050, dtSample := 0, sensors := sampleEnv }

/-- Claim C9 counterexample: across the `millis()` wraparound the loop
keeps sampling (the unsigned comparison handles the wrap) but the second
snapshot's timestamp `500` is smaller than the first's `2^32 - 600`, so
timestamps are not strictly increasing for the whole session. -/
theorem claim9_counterexample :
    (serialRun [wrapEnv1, wrapEnv2] (setupState true true 0)).snapshots.map
        VitalData.timestamp = [500, 2 ^ 32 - 600]
    ∧ timestampsIncreasing
        (serialRun [wrapEnv1, wrapEnv2] (setupState true true 0)).snapshots = false :=
  ⟨by decide, by decide⟩

/- ==================== WiFi-variant claims (C1, C6, C8) ==================== -/

/-- A WiFi-loop state just after boot: link believed up, nothing read or
sent yet. -/
def wifiStart : WifiState :=
  { now := 0, lastReadTime := 0, lastSendTime := 0, wifiConnected := true,
    flags := ⟨true, true⟩, vitals := initialVitals, readCount := 0,
    postCount := 0, sendResults := [] }

/-- An iteration in which `WiFi.status()` reads disconnected at loop
entry and every association attempt during `connectToWiFi()` fails. -/
def reconnectEnv : WifiEnv :=
  { statusAtTop := false, statusDuringConnect := fun _ => false,
    sensors := sampleEnv, dtSample := 0, dtPost := 0, httpCode := 200 }

/-- Claim C1 counterexample: in an iteration entered with the link down,
the blocking `connectToWiFi()` retry loop consumes `20 × 500 + 10` ms of
true time while `readAllSensors` is not invoked at all, so sensor reads
are not made once per elapsed `READ_INTERVAL` while a WiFi reconnection
is in progress. -/
theorem claim1_counterexample :
    (wifiStep reconnectEnv wifiStart).readCount = wifiStart.readCount
    ∧ (wifiStep reconnectEnv wifiStart).now - wifiStart.now = 10010
    ∧ ¬ ((wifiStep reconnectEnv wifiStart).now - wifiStart.now) / READ_INTERVAL ≤
        (wifiStep reconnectEnv wifiStart).readCount - wifiStart.readCount :=
  ⟨by decide, by decide, by decide⟩

/-- Claim C1 (amended): a slow or failed telemetry transmission never
alters sensor acquisition: in every iteration of the WiFi loop the read
gate fires exactly per its `READ_INTERVAL` comparison, and the read
decision, the produced snapshot, and the read clock are all independent
of the HTTP POST's status code and duration; every iteration is a total
step, so the loop never halts.  (During a WiFi reconnection, by
contrast, the loop blocks inside the bounded retry of `connectToWiFi()`
and reads are suspended for up to `20 × 500` ms — see the
counterexample.) -/
theorem claim1_transmission_never_stalls_reads (e : WifiEnv) (s : WifiState) :
    ((wifiStep e s).readCount =
      if READ_INTERVAL ≤ usub32 (s.now % 2 ^ 32) s.lastReadTime
      then s.readCount + 1 else s.readCount)
    ∧ ∀ c : Int, ∀ d : Nat,
        (wifiStep { e with httpCode := c, dtPost := d } s).readCount
            = (wifiStep e s).readCount
        ∧ (wifiStep { e with httpCode := c, dtPost := d } s).vitals
            = (wifiStep e s).vitals
        ∧ (wifiStep { e with httpCode := c, dtPost := d } s).lastReadTime
            = (wifiStep e s).lastReadTime := by
  refine ⟨?_, fun c d => ⟨rfl, rfl, rfl⟩⟩
  by_cases hc : READ_INTERVAL ≤ usub32 (s.now % 2 ^ 32) s.lastReadTime
  · simp [wifiStep, hc]
  · simp [wifiStep, hc]

/-- Claim C6: no HTTP POST happens while the link flag is down: if the
reconnect block leaves `wifiConnected = false`, the iteration issues no
POST, records no send outcome, and leaves the send clock untouched (the
interval's snapshot is simply skipped); moreover `sendVitalDataToAPI`
itself returns without transmitting whenever `wifiConnected` is false. -/
theorem claim6_no_post_when_disconnected (e : WifiEnv) (s : WifiState)
    (h : (wifiReconnect e s).1 = false) :
    (wifiStep e s).postCount = s.postCount
    ∧ (wifiStep e s).sendResults = s.sendResults
    ∧ (wifiStep e s).lastSendTime = s.lastSendTime
    ∧ ∀ c : Int, ∀ d : Nat, (sendVitalDataToAPI false c d).posted = false := by
  refine ⟨?_, ?_, ?_, fun c d => rfl⟩ <;> simp [wifiStep, h]

/-- A WiFi-loop state five seconds in, with both interval gates due. -/
def wifiIdleState : WifiState :=
  { now := 5000, lastReadTime := 0, lastSendTime := 0, wifiConnected := true,
    flags := ⟨true, true⟩, vitals := initialVitals, readCount := 3,
    postCount := 2, sendResults := [true, true] }

/-- An iteration whose reconnect fails every association attempt. -/
def wifiDownEnv : WifiEnv :=
  { statusAtTop := false, statusDuringConnect := fun _ => false,
    sensors := sampleEnv, dtSample := 0, dtPost := 0, httpCode := 200 }

/-- Claim C6 witness: a concrete iteration entered with the link down
and reconnection failing issues no POST even though the send interval
has elapsed, and a concrete disconnected `sendVitalDataToAPI` call does
not transmit. -/
theorem claim6_no_post_when_disconnected_witness :
    (wifiStep wifiDownEnv wifiIdleState).postCount = 2
    ∧ (wifiStep wifiDownEnv wifiIdleState).sendResults = [true, true]
    ∧ (wifiStep wifiDownEnv wifiIdleState).lastSendTime = 0
    ∧ (sendVitalDataToAPI false 200 7).posted = false := by
  have h := claim6_no_post_when_disconnected wifiDownEnv wifiIdleState (by decide)
  exact ⟨h.1, h.2.1, h.2.2.1, h.2.2.2 200 7⟩

/-- Claim C8 counterexample: the transport status `0` is non-negative,
yet `sendVitalDataToAPI` records it as a failure — the code's success
test is `httpResponseCode > 0`, strictly positive, not non-negative. -/
theorem claim8_counterexample :
    ¬ (((sendVitalDataToAPI true 0 0).success = true) ↔ ((0 : Int) ≥ 0)) := by
  decide

/-- Claim C8 (amended): with the link up, a publish attempt is recorded
as successful if and only if the transport returns a strictly positive
response status; exactly one POST is issued per call whatever the
outcome (failure is only logged, never retried), and an iteration of the
loop issues at most one POST, so a failed snapshot is never re-sent. -/
theorem claim8_send_outcome (c : Int) (d : Nat) :
    ((sendVitalDataToAPI true c d).success = true ↔ 0 < c)
    ∧ (sendVitalDataToAPI true c d).posted = true
    ∧ ∀ e : WifiEnv, ∀ s : WifiState, (wifiStep e s).postCount ≤ s.postCount + 1 := by
  refine ⟨?_, rfl, ?_⟩
  · simp [sendVitalDataToAPI]
  · intro e s
    simp only [wifiStep]
    split
    · split <;> omega
    · omega

end HealthCareKit
